import Mathlib

/-!
# Verification of the Sports-News-Article retrieval core

A shallow embedding in Lean 4 of the retrieval-augmented QA core of the
repository (`utils.py`, `app.py`): the whitespace chunker, the embedding and
FAISS-index wrappers, the retrieval loop, the sport-type classifier, the
deterministic mock chat composer, and the Flask-level session state updates.

Python-level primitives (str.split(), slices with negative indices, range with
arbitrary step, negative list indexing, str.strip() truthiness) are embedded
faithfully.  External collaborators (the sentence-transformers model, the
faiss nearest-neighbour search, the Python `random` module) are not repository code;
their outputs enter the model as explicit parameters, and the vector-index
contract itself is modelled from the specification where noted.
-/

namespace SportsNews

/-- Python exceptions relevant to the embedded fragment. -/
inductive PyError where
  | valueError
  | indexError
  deriving DecidableEq, Repr

/-! ## Python string/list primitives -/

/-- Tokenizer behind Python `str.split()` (no separator): splits on runs of
whitespace and drops empty pieces.  `acc` accumulates the current word in
reverse. -/
def tokAux : List Char → List Char → List (List Char)
  | [], acc => if acc = [] then [] else [acc.reverse]
  | c :: rest, acc =>
    if c.isWhitespace then
      if acc = [] then tokAux rest [] else acc.reverse :: tokAux rest []
    else
      tokAux rest (c :: acc)

/-- `text.split()` in Python: list of maximal whitespace-free words. -/
def pyWords (s : String) : List String :=
  (tokAux s.data []).map String.mk

/-- Character-level model of `" ".join(ws)`. -/
def joinTok : List (List Char) → List Char
  | [] => []
  | [w] => w
  | w :: rest => w ++ ' ' :: joinTok rest

/-- `" ".join(ws)` in Python. -/
def pyJoin (ws : List String) : String :=
  String.mk (joinTok (ws.map String.data))

/-- Truthiness of `chunk.strip()` in Python: true iff some character is not
whitespace. -/
def pyStripTruthy (s : String) : Bool :=
  s.data.any (fun c => !c.isWhitespace)

/-- `s.strip()` in Python. -/
def pyStrip (s : String) : String :=
  String.mk (((s.data.dropWhile Char.isWhitespace).reverse.dropWhile
    Char.isWhitespace).reverse)

/-- Normalisation of one bound of a Python slice `l[a:b]` over a list of
length `n`: negative indices count from the end; the result is clamped to
`[0, n]`. -/
def pySliceIdx (n : Nat) (i : Int) : Nat :=
  (min (if i < 0 then i + n else i) (n : Int)).toNat

/-- Python slice `l[a:b]` (step 1). -/
def pySlice {α : Type} (l : List α) (a b : Int) : List α :=
  (l.take (pySliceIdx l.length b)).drop (pySliceIdx l.length a)

/-- Python item access `l[i]`: negative `i` counts from the end; a
out-of-range access is an `IndexError`, modelled as `none`. -/
def pyGetItem {α : Type} (l : List α) (i : Int) : Option α :=
  if 0 ≤ i then l.get? i.toNat
  else if -(l.length : Int) ≤ i then l.get? (i + l.length).toNat
  else none

/-- Number of elements of Python `range(start, stop, step)` for `step ≠ 0`
(`max 0 (ceil ((stop-start)/step))`, expressed with floor division the way
CPython computes it). -/
def pyRangeCount (start stop step : Int) : Nat :=
  if 0 < step then ((stop - start + step - 1) / step).toNat
  else ((start - stop + (-step) - 1) / (-step)).toNat

/-- Python `range(start, stop, step)`: a `ValueError` when `step = 0`,
otherwise the arithmetic progression. -/
def pyRange (start stop step : Int) : Except PyError (List Int) :=
  if step = 0 then .error .valueError
  else .ok ((List.range (pyRangeCount start stop step)).map
    (fun j : Nat => start + step * (j : Int)))

/-- First character is a decimal digit.  The Python side filters words with
an anchored regular expression — one or more digits, an optional dash or
slash, then more digits — which succeeds exactly when the word starts with a
digit. -/
def startsWithDigit (w : String) : Bool :=
  match w.data with
  | [] => false
  | c :: _ => c.isDigit

/-! ## `utils.split_text_into_chunks` -/

/-- `utils.split_text_into_chunks(text, chunk_size, overlap)`:
`words = text.split()`, then for `i in range(0, len(words), chunk_size -
overlap)` join `words[i:i+chunk_size]` and keep it when `chunk.strip()` is
truthy.  A zero stride makes `range` raise `ValueError`. -/
def split_text_into_chunks (text : String) (chunk_size overlap : Int) :
    Except PyError (List String) :=
  let words := pyWords text
  (pyRange 0 (words.length : Int) (chunk_size - overlap)).map
    (fun idxs =>
      idxs.foldl
        (fun acc i =>
          let chunk := pyJoin (pySlice words i (i + chunk_size))
          if pyStripTruthy chunk then acc ++ [chunk] else acc)
        [])

example : split_text_into_chunks "a b c d e" 2 1 =
    .ok ["a b", "b c", "c d", "d e", "e"] := rfl
example : split_text_into_chunks "a b c" 2 3 = .ok [] := rfl
example : split_text_into_chunks "a b c" 2 2 = .error .valueError := rfl
example : split_text_into_chunks "a b c d" 5 2 = .ok ["a b c d", "d"] := rfl
example : split_text_into_chunks "" 500 50 = .ok [] := rfl

/-! ## `utils.create_embeddings` and `utils.build_faiss_index`

Vectors are modelled over `ℚ`.  The sentence-transformers model is an
external collaborator: its outcome (a vector list, or a raised exception)
enters as an `Except` parameter. -/

/-- An embedding matrix: one vector per chunk. -/
abbrev Embeddings := List (List ℚ)

/-- `utils.create_embeddings(chunks)`: returns `model.encode(chunks)`;
if the model raises, the exception is caught, printed, and the empty
`np.array([])` is returned. -/
def create_embeddings (encodeResult : Except Unit Embeddings) : Embeddings :=
  match encodeResult with
  | .ok e => e
  | .error _ => []

/-- The stored FAISS index: an `IndexFlatL2` holding the added vectors in
insertion order. -/
abbrev FaissIndex := List (List ℚ)

/-- `utils.build_faiss_index(embeddings)`: reads `embeddings.shape[1]` — on
the empty 1-d `np.array([])` this raises `IndexError`, which the function
catches, returning `None` — then adds all vectors to an `IndexFlatL2`. -/
def build_faiss_index (embeddings : Embeddings) : Option FaissIndex :=
  match embeddings with
  | [] => none
  | v :: vs => some (v :: vs)

/-! ## `utils.get_relevant_chunks` — the retrieval loop

The faiss `search` call is external; the index row it returns enters as the
parameter `indices`.  The loop appends `chunks[idx]` whenever
`idx < len(chunks)` — a Python comparison that negative indices also pass,
after which `chunks[idx]` resolves by negative indexing or raises
`IndexError`; the blanket `except` of the function turns any exception into an
empty result. -/

/-- One pass of the retrieval loop, with Python exception semantics. -/
def retrieveLoop (chunks : List String) : List Int → Except PyError (List String)
  | [] => .ok []
  | idx :: rest =>
    if idx < (chunks.length : Int) then
      match pyGetItem chunks idx with
      | some c => (retrieveLoop chunks rest).map (fun l => c :: l)
      | none => .error .indexError
    else retrieveLoop chunks rest

/-- The chunk-collection step of `utils.get_relevant_chunks`, as a function
of the index row returned by `faiss_index.search`: the `try`/`except` block
returns `[]` on any exception. -/
def get_relevant_chunks (indices : List Int) (chunks : List String) :
    List String :=
  match retrieveLoop chunks indices with
  | .ok l => l
  | .error _ => []

example : get_relevant_chunks [0, 5, 1] ["a", "b"] = ["a", "b"] := rfl
example : get_relevant_chunks [-1] ["a", "b"] = ["b"] := rfl
example : get_relevant_chunks [0, -3] ["a", "b"] = [] := rfl

/-! ## `utils.detect_sport_type` -/

/-- Python `text.lower()` (character-wise lowercasing). -/
def pyLower (s : String) : String :=
  String.mk (s.data.map Char.toLower)

/-- The cricket vocabulary of `detect_sport_type`. -/
def cricket_terms : List String :=
  ["cricket", "wicket", "over", "ball", "bat", "bowl", "run", "century",
   "fifty", "innings", "stumps", "boundary", "six", "four", "lbw", "caught",
   "bowled"]

/-- The football vocabulary of `detect_sport_type`. -/
def football_terms : List String :=
  ["football", "soccer", "goal", "penalty", "corner", "free kick", "offside",
   "yellow card", "red card", "goalkeeper", "midfielder", "striker",
   "defender"]

/-- The basketball vocabulary of `detect_sport_type`. -/
def basketball_terms : List String :=
  ["basketball", "dunk", "three pointer", "free throw", "rebound", "assist",
   "steal", "block", "point guard", "center", "forward"]

/-- The tennis vocabulary of `detect_sport_type`. -/
def tennis_terms : List String :=
  ["tennis", "serve", "ace", "set", "game", "match point", "deuce",
   "advantage", "forehand", "backhand", "volley"]

/-- `p` occurs as a contiguous run inside `l`. -/
def isInfixB (p : List Char) : List Char → Bool
  | [] => p.isEmpty
  | c :: rest => p.isPrefixOf (c :: rest) || isInfixB p rest

/-- Python `term in text`: substring containment. -/
def pyInStr (text term : String) : Bool :=
  isInfixB term.data text.data

/-- `sum(1 for term in terms if term in text_lower)`. -/
def countTerms (terms : List String) (text_lower : String) : Nat :=
  terms.foldl (fun acc term => if pyInStr text_lower term then acc + 1 else acc) 0

/-- Python `max(counts, key=counts.get)` over a dict in insertion order:
the first key attaining the maximal value. -/
def maxKeyFirst : List (String × Nat) → String
  | [] => ""
  | x :: xs => (xs.foldl (fun best c => if c.2 > best.2 then c else best) x).1

/-- `utils.detect_sport_type(text)`: lowercase the text, count (distinct)
vocabulary hits per sport, return the max-count sport (first in dict
insertion order `cricket, football, basketball, tennis` on ties), defaulting
to `"cricket"` when every count is zero. -/
def detect_sport_type (text : String) : String :=
  let text_lower := pyLower text
  let cricket_count := countTerms cricket_terms text_lower
  let football_count := countTerms football_terms text_lower
  let basketball_count := countTerms basketball_terms text_lower
  let tennis_count := countTerms tennis_terms text_lower
  let counts := [("cricket", cricket_count), ("football", football_count),
                 ("basketball", basketball_count), ("tennis", tennis_count)]
  if max (max cricket_count football_count)
      (max basketball_count tennis_count) > 0 then
    maxKeyFirst counts
  else "cricket"

example : detect_sport_type "goal serve" = "football" := rfl
example : detect_sport_type "zzz" = "cricket" := rfl
example : detect_sport_type "coverage" = "cricket" := rfl
example :
    detect_sport_type "wicket over six wicket over six wicket over six goal" =
      "cricket" := rfl
example : countTerms cricket_terms "wicket wicket wicket" = 1 := rfl
example : countTerms cricket_terms "coverage" = 1 := rfl

/-! ## `utils.generate_mock_chat_response`

The composer calls two non-deterministic collaborators:
`extract_mock_star_players` (whose fallback draws unseeded random names) and
`random.choice`.  Both enter the model as parameters: `extracted_players` is
the value returned by the extractor on the joined context, `choice` is the
random choice function. -/

/-- `any(word in query_lower for word in ws)`. -/
def anyIn (query_lower : String) (ws : List String) : Bool :=
  ws.any (fun w => pyInStr query_lower w)

/-- `query_lower.startswith(p)`. -/
def pyStartsWith (s p : String) : Bool :=
  p.data.isPrefixOf s.data

/-- Character-level model of `sep.join(ws)` for an arbitrary separator. -/
def joinSep (sep : List Char) : List (List Char) → List Char
  | [] => []
  | [w] => w
  | w :: rest => w ++ sep ++ joinSep sep rest

/-- Python `sep.join(ws)`. -/
def pyJoinWith (sep : String) (ws : List String) : String :=
  String.mk (joinSep sep.data (ws.map String.data))

/-- Character-level model of Python `s.split(sep)` for a one-character
separator (keeps empty pieces). -/
def splitSepAux (sep : Char) : List Char → List Char → List (List Char)
  | [], acc => [acc.reverse]
  | c :: rest, acc =>
    if c = sep then acc.reverse :: splitSepAux sep rest []
    else splitSepAux sep rest (c :: acc)

/-- Python `s.split(sep)` for a one-character separator. -/
def pySplitSep (s : String) (sep : Char) : List String :=
  (splitSepAux sep s.data []).map String.mk

/-- Python string slice `s[:n]`. -/
def pyStrSliceTo (s : String) (n : Int) : String :=
  String.mk (pySlice s.data 0 n)

/-- `utils.generate_mock_chat_response(query, relevant_chunks)`: the ordered
keyword-group rule engine, translated branch by branch from the source. -/
def generate_mock_chat_response (query : String) (relevant_chunks : List String)
    (extracted_players : List String) (choice : List String → String) : String :=
  let context := pyJoin (pySlice relevant_chunks 0 2)
  let query_lower := pyLower query
  let sport_type := detect_sport_type context
  let context_words := pyWords context
  let numbers := context_words.filter startsWithDigit
  -- Player-specific questions (highest priority)
  if anyIn query_lower ["player", "who", "name", "star", "performer",
      "captain", "batsman", "bowler"] then
    if extracted_players ≠ [] &&
        !(extracted_players.all
          (fun name => ["Rahul Sharma", "Virat Patel", "Rohit Singh"].contains name)) then
      if extracted_players.length = 1 then
        "Key player: " ++ extracted_players.headD ""
      else
        "Star players: " ++ pyJoinWith ", " (pySlice extracted_players 0 2)
    else
      if sport_type = "cricket" then
        "Key performers showed excellent batting and bowling skills."
      else if sport_type = "football" then
        "Standout players controlled midfield and created chances."
      else if sport_type = "basketball" then
        "Top scorers dominated with precise shooting."
      else
        "Multiple players delivered outstanding performances."
  -- Scoring and results questions
  else if anyIn query_lower ["score", "result", "runs", "goals", "points",
      "final"] then
    if numbers ≠ [] then
      if sport_type = "cricket" then
        "Match score: " ++ choice numbers ++ " runs. Close contest."
      else if sport_type = "football" then
        "Final score: " ++ choice numbers ++ ". Well-contested match."
      else if sport_type = "basketball" then
        "Final points: " ++ choice numbers ++ ". High-scoring game."
      else
        "Final result: " ++ choice numbers ++ ". Competitive match."
    else
      "Close contest with competitive scoring throughout."
  -- Performance and statistics questions
  else if anyIn query_lower ["best", "top", "highest", "most", "outstanding",
      "stat", "performance"] then
    if extracted_players ≠ [] && numbers ≠ [] then
      "Top performer: " ++ extracted_players.headD "" ++ " with " ++
        choice numbers ++ "."
    else if extracted_players ≠ [] then
      "Outstanding performance by " ++ extracted_players.headD "" ++ "."
    else
      if sport_type = "cricket" then
        "Excellent batting and bowling statistics recorded."
      else if sport_type = "football" then
        "Strong attacking and defensive metrics."
      else if sport_type = "basketball" then
        "High shooting percentages and rebounds."
      else
        "Impressive performance statistics across the board."
  -- Match analysis and summary questions
  else if anyIn query_lower ["summary", "analysis", "review", "highlight",
      "key", "important"] then
    if sport_type = "cricket" then
      "Well-balanced contest with excellent batting, bowling, and fielding displays."
    else if sport_type = "football" then
      "Tactical battle with good attacking play and solid defensive work."
    else if sport_type = "basketball" then
      "Fast-paced game with excellent shooting and strong rebounding."
    else
      "Competitive match with high-quality performances from both teams."
  -- Sport-specific technical questions
  else if sport_type = "cricket" && anyIn query_lower ["wicket", "catch",
      "boundary", "six", "four", "over", "innings"] then
    "Exciting cricket action with boundaries, wickets, and spectacular catches."
  else if sport_type = "football" && anyIn query_lower ["goal", "assist",
      "penalty", "corner", "foul", "card"] then
    "Dynamic football with strategic plays and decisive moments."
  else if sport_type = "basketball" && anyIn query_lower ["basket", "dunk",
      "three", "rebound", "assist", "steal"] then
    "High-energy basketball with impressive shooting and athletic plays."
  -- Time and match progression questions
  else if anyIn query_lower ["when", "time", "period", "minute", "first",
      "second", "half"] then
    if sport_type = "cricket" then
      "Key moments spread across both innings."
    else if sport_type = "football" then
      "Important events in both halves."
    else if sport_type = "basketball" then
      "Crucial plays throughout all quarters."
    else
      "Significant moments distributed across the match."
  -- Team and strategy questions
  else if anyIn query_lower ["team", "strategy", "tactic", "formation",
      "captain", "coach"] then
    if sport_type = "cricket" then
      "Well-planned team strategy with effective field placements."
    else if sport_type = "football" then
      "Strategic formations and tactical substitutions."
    else if sport_type = "basketball" then
      "Effective team coordination and play execution."
    else
      "Strong team performance with good strategic decisions."
  -- Direct question types
  else if pyStartsWith query_lower "what" then
    if pyInStr query_lower "happened" then
      "Exciting " ++ sport_type ++ " match with competitive play throughout."
    else if pyInStr query_lower "was" then
      "It was a well-contested " ++ sport_type ++ " encounter."
    else
      if context ≠ "" then
        "Key match details: " ++ pyStrSliceTo context 60 ++ "..."
      else
        "Competitive match with good performances."
  else if pyStartsWith query_lower "how" then
    if pyInStr query_lower "did" then
      "Through skillful play and strategic execution."
    else if pyInStr query_lower "many" then
      "Multiple " ++
        (if sport_type = "cricket" then "runs"
         else if sport_type = "football" then "goals"
         else "points") ++ " scored."
    else
      "Excellent execution of game plans by both teams."
  else if pyStartsWith query_lower "why" then
    "Due to superior strategy and individual performances."
  else if pyStartsWith query_lower "where" then
    "At the home ground with excellent playing conditions."
  -- Conversational responses
  else if anyIn query_lower ["hello", "hi", "hey"] then
    "Hello! I can help with questions about this " ++ sport_type ++ " match."
  else if anyIn query_lower ["thank", "thanks"] then
    "You\x27re welcome! Feel free to ask more about the match."
  else if anyIn query_lower ["good", "great", "excellent"] then
    "Yes, it was an excellent match with quality performances!"
  -- Default contextual response
  else
    if pyStripTruthy context then
      "From the match: " ++ (pySplitSep context '.').headD "" ++ "..."
    else
      "Please upload a match PDF to get specific insights."

example :
    generate_mock_chat_response "What was the score?" [] [] (fun l => l.headD "") =
      "Close contest with competitive scoring throughout." := rfl
example :
    generate_mock_chat_response "who scored?" []
        ["Virat Kohli", "Rohit Sharma", "MS Dhoni"] (fun l => l.headD "") =
      "Star players: Virat Kohli, Rohit Sharma" := rfl

/-! ## `app.py` — session state and routes -/

/-- The `processed_data` dict of `app.py`. -/
structure SessionState where
  article : Option String
  star_players : List String
  faiss_index : Option FaissIndex
  chunks : List String
  embeddings : Option Embeddings
  deriving DecidableEq, Repr

/-- `processed_data` at startup. -/
def initialState : SessionState :=
  { article := none, star_players := [], faiss_index := none, chunks := [],
    embeddings := none }

/-- The flash message + redirect a request to `/upload` ends with. -/
inductive FlashMsg where
  | flashError (msg : String)
  | flashSuccess (msg : String)
  deriving DecidableEq, Repr

/-- `split_text_into_chunks` at default parameters `(500, 50)`; the stride
is 450, so the `range` never raises. -/
def splitDefault (text : String) : List String :=
  match split_text_into_chunks text 500 50 with
  | .ok cs => cs
  | .error _ => []

/-- The PDF-processing phase of `app.upload_file`, after a PDF is saved:
text extraction already happened (its result is `text`, the empty string
when extraction failed); the sentence-transformer outcome enters as
`encodeResult`, and article generation / star-player extraction (mock mode,
randomized) as `articleText` / `players`.  On empty extracted text the
route flashes an error and leaves `processed_data` untouched; otherwise
every stage result — including a `None` index — is stored into
`processed_data` and `PDF processed successfully!` is flashed. -/
def upload_file (st : SessionState) (text : String)
    (encodeResult : Except Unit Embeddings) (articleText : String)
    (players : List String) : SessionState × FlashMsg :=
  if pyStripTruthy text = false then
    (st, .flashError "Could not extract text from PDF")
  else
    let chunks := splitDefault text
    let embeddings := create_embeddings encodeResult
    let faiss_index := build_faiss_index embeddings
    ({ article := some articleText, star_players := players,
       faiss_index := faiss_index, chunks := chunks,
       embeddings := some embeddings },
     .flashSuccess "PDF processed successfully!")

/-- Failure modes of the `/chat` route. -/
inductive ChatError where
  | emptyQuery
  | notReady
  deriving DecidableEq, Repr

/-- The JSON error message of each `/chat` failure (both HTTP 400). -/
def chatErrorMessage : ChatError → String
  | .emptyQuery => "Please enter a question"
  | .notReady => "Please upload a PDF first"

/-- The `/chat` route of `app.py`: strip the query; reject an empty query;
reject when the `faiss_index` slot of `processed_data` is `None` or
its `chunks` slot is empty; otherwise retrieve chunks (the faiss
search row enters as `indices`) and answer through the mock composer
(`players`/`choice` are its injected random collaborators). -/
def chat (st : SessionState) (rawQuery : String) (indices : List Int)
    (players : List String) (choice : List String → String) :
    Except ChatError String :=
  let query := pyStrip rawQuery
  if query = "" then .error .emptyQuery
  else if st.faiss_index = none || st.chunks = [] then .error .notReady
  else
    .ok (generate_mock_chat_response query
      (get_relevant_chunks indices st.chunks) players choice)

example :
    chat initialState "who scored?" [] [] (fun l => l.headD "") =
      .error .notReady := rfl
example :
    chat initialState "  " [] [] (fun l => l.headD "") =
      .error .emptyQuery := rfl

/-! ## Claim C8 — domain classification -/

/-- C8 (counterexample): the text `"goal serve"` produces a tie between
football and tennis (1–1, with cricket and basketball at 0), yet
`detect_sport_type` returns `"football"`, not the claimed fixed default
`"cricket"`: ties are not sent to cricket unless cricket itself attains the
maximum. -/
theorem detect_sport_type_tie_defaults_to_first_not_cricket :
    detect_sport_type "goal serve" = "football" ∧
    countTerms football_terms (pyLower "goal serve") =
      countTerms tennis_terms (pyLower "goal serve") ∧
    countTerms football_terms (pyLower "goal serve") = 1 ∧
    countTerms cricket_terms (pyLower "goal serve") = 0 ∧
    countTerms basketball_terms (pyLower "goal serve") = 0 ∧
    ("football" : String) ≠ "cricket" :=
  ⟨rfl, rfl, rfl, rfl, rfl, by decide⟩

/-- C8 (amended): `detect_sport_type` returns the first category in the
fixed order cricket, football, basketball, tennis whose keyword-hit count
attains the maximum; all-zero counts and any tie that cricket participates
in give `"cricket"`, but a tie among later categories goes to the earliest
of them, not to cricket; the scenario text of the spec (`"wicket"`, `"over"`,
`"six"` thrice, `"goal"` once) still classifies as cricket. -/
theorem detect_sport_type_first_argmax (text : String) :
    (countTerms cricket_terms (pyLower text) ≥ countTerms football_terms (pyLower text) →
     countTerms cricket_terms (pyLower text) ≥ countTerms basketball_terms (pyLower text) →
     countTerms cricket_terms (pyLower text) ≥ countTerms tennis_terms (pyLower text) →
     detect_sport_type text = "cricket") ∧
    (countTerms football_terms (pyLower text) > countTerms cricket_terms (pyLower text) →
     countTerms football_terms (pyLower text) ≥ countTerms basketball_terms (pyLower text) →
     countTerms football_terms (pyLower text) ≥ countTerms tennis_terms (pyLower text) →
     detect_sport_type text = "football") ∧
    (countTerms basketball_terms (pyLower text) > countTerms cricket_terms (pyLower text) →
     countTerms basketball_terms (pyLower text) > countTerms football_terms (pyLower text) →
     countTerms basketball_terms (pyLower text) ≥ countTerms tennis_terms (pyLower text) →
     detect_sport_type text = "basketball") ∧
    (countTerms tennis_terms (pyLower text) > countTerms cricket_terms (pyLower text) →
     countTerms tennis_terms (pyLower text) > countTerms football_terms (pyLower text) →
     countTerms tennis_terms (pyLower text) > countTerms basketball_terms (pyLower text) →
     detect_sport_type text = "tennis") ∧
    detect_sport_type
      "wicket over six wicket over six wicket over six goal" = "cricket" := by
  refine ⟨?_, ?_, ?_, ?_, rfl⟩ <;>
    · intro h1 h2 h3
      unfold detect_sport_type maxKeyFirst
      dsimp only [List.foldl]
      split_ifs <;> first | rfl | omega

/-- C8 (witness): the amended theorem applied to an all-zero text. -/
theorem detect_sport_type_first_argmax_witness :
    detect_sport_type "zzz" = "cricket" :=
  (detect_sport_type_first_argmax "zzz").1
    (by decide) (by decide) (by decide)

/-! ## Claim C10 — per-category counts are distinct-substring hits -/

/-- Counting with a fold equals the length of the filtered term list. -/
theorem countTerms_eq_filter_length (terms : List String) (tl : String) :
    countTerms terms tl = (terms.filter (fun t => pyInStr tl t)).length := by
  unfold countTerms
  suffices h : ∀ (ts : List String) (n : Nat),
      ts.foldl (fun acc term => if pyInStr tl term then acc + 1 else acc) n =
        n + (ts.filter (fun t => pyInStr tl t)).length by
    simpa using h terms 0
  intro ts
  induction ts with
  | nil => simp
  | cons t ts ih =>
    intro n
    by_cases h : pyInStr tl t = true <;>
      simp [List.filter_cons, h, ih, Nat.add_assoc, Nat.add_comm 1]

/-- C10: each sport count of `detect_sport_type` equals the number of
distinct vocabulary terms occurring as substrings of the lowercased text
(the vocabulary lists hold no duplicates, and each term contributes at most
one regardless of how often it occurs); substring matching hits keywords
inside longer words, e.g. `"over"` inside `"coverage"` and `"run"` inside
`"runner"`, while three occurrences of `"wicket"` still count once. -/
theorem countTerms_distinct_substring_semantics :
    (∀ (terms : List String) (tl : String),
      countTerms terms tl = (terms.filter (fun t => pyInStr tl t)).length) ∧
    cricket_terms.Nodup ∧ football_terms.Nodup ∧
    basketball_terms.Nodup ∧ tennis_terms.Nodup ∧
    pyInStr (pyLower "coverage") "over" = true ∧
    countTerms cricket_terms (pyLower "coverage") = 1 ∧
    pyInStr (pyLower "runner") "run" = true ∧
    countTerms cricket_terms (pyLower "runner") = 1 ∧
    countTerms cricket_terms (pyLower "wicket wicket wicket") = 1 :=
  ⟨countTerms_eq_filter_length, by decide, by decide, by decide, by decide,
   rfl, rfl, rfl, rfl, rfl⟩

/-! ## Claim C9 — the fixed score-fallback reply -/

/-- C9 (counterexample): the query `"who scored?"` contains the score
keyword `"score"` (inside `"scored"`) and its context has no number tokens,
yet the composer does not return the fixed score-fallback string: the query
also matches the earlier player keyword group (`"who"`), whose branch runs
first.  (`extract_mock_star_players` on the empty context falls back to
three random cricket names; `["Virat Kohli", "Rohit Sharma", "MS Dhoni"]` is
such a draw, and every player-branch reply differs from the fixed string.) -/
theorem score_keyword_query_answered_by_player_branch :
    pyInStr (pyLower "who scored?") "score" = true ∧
    (pyWords (pyJoin (pySlice ([] : List String) 0 2))).filter
      startsWithDigit = [] ∧
    generate_mock_chat_response "who scored?" []
        ["Virat Kohli", "Rohit Sharma", "MS Dhoni"] (fun l => l.headD "") =
      "Star players: Virat Kohli, Rohit Sharma" ∧
    ("Star players: Virat Kohli, Rohit Sharma" : String) ≠
      "Close contest with competitive scoring throughout." :=
  ⟨rfl, rfl, rfl, by decide⟩

/-- C9 (amended): for every query matching the score/result keyword group
(`score`, `result`, `runs`, `goals`, `points`, `final`) but not the
higher-priority player keyword group (`player`, `who`, `name`, `star`,
`performer`, `captain`, `batsman`, `bowler`), posed against retrieved
context in which no number tokens were extracted, the composer
deterministically returns the fixed string
`"Close contest with competitive scoring throughout."`, for any outcome of
the random collaborators. -/
theorem score_query_without_numbers_gets_fixed_reply
    (query : String) (relevant_chunks players : List String)
    (choice : List String → String)
    (hplayer : anyIn (pyLower query) ["player", "who", "name", "star",
      "performer", "captain", "batsman", "bowler"] = false)
    (hscore : anyIn (pyLower query) ["score", "result", "runs", "goals",
      "points", "final"] = true)
    (hnum : (pyWords (pyJoin (pySlice relevant_chunks 0 2))).filter
      startsWithDigit = []) :
    generate_mock_chat_response query relevant_chunks players choice =
      "Close contest with competitive scoring throughout." := by
  unfold generate_mock_chat_response
  simp only [hplayer, hscore, hnum]
  simp

/-- C9 (witness): the amended theorem at the scenario query of the spec. -/
theorem score_query_without_numbers_gets_fixed_reply_witness :
    generate_mock_chat_response "What was the score?" [] []
        (fun l => l.headD "") =
      "Close contest with competitive scoring throughout." :=
  score_query_without_numbers_gets_fixed_reply "What was the score?" [] []
    (fun l => l.headD "") rfl rfl rfl

/-! ## Claims C1 and C7 — ingest is not atomic under embedding failure -/

/-- A previously stored complete session state (after one successful
ingest). -/
def priorState : SessionState :=
  { article := some "old article", star_players := ["Old Player"],
    faiss_index := some [[1, 2]], chunks := ["old chunk"],
    embeddings := some [[1, 2]] }

/-- C1: evaluation of the code at the failing input.  When the
embedding stage of a later ingest fails (the model raises, so `create_embeddings` returns the
empty-array sentinel and `build_faiss_index` returns `None`), `upload_file`
does not leave the previously stored complete state intact: it overwrites
every field, storing `faiss_index = None` together with the new chunks and
article, and still flashes `PDF processed successfully!`. -/
theorem upload_embedding_failure_overwrites_prior_state :
    upload_file priorState "new text" (.error ()) "new article" ["New Player"] =
      ({ article := some "new article", star_players := ["New Player"],
         faiss_index := none, chunks := ["new text"],
         embeddings := some [] },
       .flashSuccess "PDF processed successfully!") ∧
    priorState.faiss_index = some [[1, 2]] ∧
    (upload_file priorState "new text" (.error ()) "new article"
      ["New Player"]).1 ≠ priorState :=
  ⟨rfl, rfl, by decide⟩

/-- C7: evaluation of the code at the failing input.  When the embedding
model is unavailable, `create_embeddings` returns the degenerate empty
array rather than an explicit failure signal, and its caller `upload_file`
proceeds to index-building with that failed result — `build_faiss_index`
is applied to it, yields `None`, and both the empty embedding matrix and
the `None` index are stored while success is flashed. -/
theorem create_embeddings_failure_reaches_index_build :
    create_embeddings (.error ()) = ([] : Embeddings) ∧
    build_faiss_index (create_embeddings (.error ())) = none ∧
    (upload_file priorState "pq r" (.error ()) "art" ["P"]).1.embeddings =
      some [] ∧
    (upload_file priorState "pq r" (.error ()) "art" ["P"]).1.faiss_index =
      build_faiss_index (create_embeddings (.error ())) ∧
    (upload_file priorState "pq r" (.error ()) "art" ["P"]).2 =
      .flashSuccess "PDF processed successfully!" :=
  ⟨rfl, rfl, rfl, rfl, rfl⟩

/-! ## Claim C5 — chunking with `overlap >= chunk_size` -/

/-- C5 (counterexample): on the non-empty text `"a b c"` with
`chunk_size = 2, overlap = 3` the stride is negative, `range(0, 3, -1)` is
empty, and `split_text_into_chunks` silently returns the empty chunk list —
no `InvalidConfiguration` error is raised. -/
theorem chunker_negative_stride_silently_returns_empty :
    split_text_into_chunks "a b c" 2 3 = .ok [] ∧
    (pyWords "a b c").length = 3 :=
  ⟨rfl, rfl⟩

/-- C5 (amended): for `overlap = chunk_size` the chunker raises the
`ValueError` of `range` (an unrelated exception, not an `InvalidConfiguration`
failure), and for `overlap > chunk_size` it silently returns the empty
chunk list; in neither case does it loop indefinitely. -/
theorem chunker_nonpositive_stride_behaviour (text : String)
    (chunk_size overlap : Int) :
    (overlap = chunk_size →
      split_text_into_chunks text chunk_size overlap = .error .valueError) ∧
    (chunk_size < overlap →
      split_text_into_chunks text chunk_size overlap = .ok []) := by
  constructor
  · intro h
    unfold split_text_into_chunks pyRange
    simp [h]
    rfl
  · intro h
    unfold split_text_into_chunks pyRange
    dsimp only
    have hne : chunk_size - overlap ≠ 0 := by omega
    have hnpos : ¬ 0 < chunk_size - overlap := by omega
    have hcount : pyRangeCount 0 ((pyWords text).length : Int)
        (chunk_size - overlap) = 0 := by
      unfold pyRangeCount
      rw [if_neg hnpos]
      have hdpos : (0 : Int) < -(chunk_size - overlap) := by omega
      have hlt : 0 - ((pyWords text).length : Int) +
          -(chunk_size - overlap) - 1 < 1 * -(chunk_size - overlap) := by
        have := Int.ofNat_nonneg (pyWords text).length
        omega
      have := (Int.ediv_lt_iff_lt_mul hdpos).mpr hlt
      omega
    rw [if_neg hne, hcount]
    rfl

/-- C5 (witness): the amended theorem at `chunk_size = overlap = 2`. -/
theorem chunker_nonpositive_stride_behaviour_witness :
    split_text_into_chunks "a b" 2 2 = .error .valueError :=
  (chunker_nonpositive_stride_behaviour "a b" 2 2).1 rfl

/-! ## Claim C4 — querying before a successful ingest -/

/-- C4 (counterexample): a query that is empty after stripping, issued in
the no-ingest state, is rejected with the empty-query error (`Please enter
a question`), not with the NotReady error — the universal "every query" of the claim does
not cover it. -/
theorem chat_empty_query_not_notReady :
    chat initialState "" [] [] (fun l => l.headD "") =
      .error .emptyQuery ∧
    initialState.faiss_index = none ∧ initialState.chunks = [] ∧
    ChatError.emptyQuery ≠ ChatError.notReady :=
  ⟨rfl, rfl, rfl, by decide⟩

/-- C4 (amended): every query that is non-empty after stripping, issued
while the stored index is `None` or the chunk sequence is empty, fails fast
with the NotReady error, surfaced as `Please upload a PDF first` (HTTP
400); retrieval and answer generation are never reached in that state. -/
theorem chat_not_ready_before_ingest (st : SessionState) (rawQuery : String)
    (indices : List Int) (players : List String)
    (choice : List String → String)
    (hq : pyStrip rawQuery ≠ "")
    (hstate : st.faiss_index = none ∨ st.chunks = []) :
    chat st rawQuery indices players choice = .error .notReady ∧
    chatErrorMessage .notReady = "Please upload a PDF first" := by
  refine ⟨?_, rfl⟩
  rcases hstate with h | h <;> simp [chat, h, hq]

/-- C4 (witness): the amended theorem at the scenario query of the spec
`"who scored?"` in the startup state. -/
theorem chat_not_ready_before_ingest_witness :
    chat initialState "who scored?" [] [] (fun l => l.headD "") =
      .error .notReady :=
  (chat_not_ready_before_ingest initialState "who scored?" [] []
    (fun l => l.headD "") (by decide) (Or.inl rfl)).1

/-! ## Claim C2 — out-of-bounds indices in the retrieval loop -/

/-- An index below `-len(chunks)` raises `IndexError` inside the loop. -/
theorem retrieveLoop_indexError (chunks : List String) :
    ∀ idxs : List Int, (∃ i ∈ idxs, i < -(chunks.length : Int)) →
      retrieveLoop chunks idxs = .error .indexError := by
  intro idxs
  induction idxs with
  | nil => rintro ⟨j, hj, _⟩; simp at hj
  | cons i rest ih =>
    rintro ⟨j, hj, hjlt⟩
    unfold retrieveLoop
    rcases List.mem_cons.mp hj with rfl | hjrest
    · rw [if_pos (by omega)]
      have hnone : pyGetItem chunks j = none := by
        unfold pyGetItem
        rw [if_neg (by omega), if_neg (by omega)]
      rw [hnone]
    · by_cases hlt : i < (chunks.length : Int)
      · rw [if_pos hlt]
        cases hget : pyGetItem chunks i with
        | none => rfl
        | some c => rw [ih ⟨j, hjrest, hjlt⟩]; rfl
      · rw [if_neg hlt]
        exact ih ⟨j, hjrest, hjlt⟩

/-- When no index is below `-len(chunks)`, the loop collects, in order, the
chunk each surviving index resolves to. -/
theorem retrieveLoop_ok (chunks : List String) :
    ∀ idxs : List Int, (∀ i ∈ idxs, -(chunks.length : Int) ≤ i) →
      retrieveLoop chunks idxs = .ok (idxs.filterMap
        (fun i => if i < (chunks.length : Int) then pyGetItem chunks i
          else none)) := by
  intro idxs
  induction idxs with
  | nil => intro _; rfl
  | cons i rest ih =>
    intro h
    have hi := h i (List.mem_cons_self i rest)
    have hrest := fun j hj => h j (List.mem_cons_of_mem i hj)
    unfold retrieveLoop
    by_cases hlt : i < (chunks.length : Int)
    · obtain ⟨c, hc⟩ : ∃ c, pyGetItem chunks i = some c := by
        unfold pyGetItem
        by_cases h0 : 0 ≤ i
        · rw [if_pos h0]
          have hn : i.toNat < chunks.length := by omega
          exact ⟨_, List.get?_eq_get hn⟩
        · rw [if_neg h0, if_pos hi]
          have hn : (i + chunks.length).toNat < chunks.length := by omega
          exact ⟨_, List.get?_eq_get hn⟩
      rw [if_pos hlt, hc, ih hrest]
      simp [List.filterMap_cons, hlt, hc]
      rfl
    · rw [if_neg hlt, ih hrest]
      simp [List.filterMap_cons, hlt]

/-- C2 (counterexample): the index `-1` returned by the search is not
skipped: it passes the `idx < len(chunks)` guard and Python negative
indexing resolves it to the last chunk. -/
theorem negative_index_resolves_to_chunk :
    get_relevant_chunks [-1] ["a", "b"] = ["b"] ∧
    (["b"] : List String) ≠ [] :=
  ⟨rfl, by decide⟩

/-- C2 (amended): in the retrieval loop, indices at or above `len(chunks)`
are silently skipped; indices in `[0, len)` resolve positionally; negative
indices in `[-len, -1]` are *not* skipped — Python negative indexing
resolves them to `chunks[len + idx]`; and any index below `-len` raises
`IndexError`, which the blanket handler converts into an empty overall
result (no exception escapes in any case). -/
theorem get_relevant_chunks_bounds_behaviour (indices : List Int)
    (chunks : List String) :
    ((∀ i ∈ indices, -(chunks.length : Int) ≤ i) →
      get_relevant_chunks indices chunks = indices.filterMap
        (fun i => if i < (chunks.length : Int) then pyGetItem chunks i
          else none)) ∧
    ((∃ i ∈ indices, i < -(chunks.length : Int)) →
      get_relevant_chunks indices chunks = []) ∧
    (∀ i : Int, (chunks.length : Int) ≤ i →
      (if i < (chunks.length : Int) then pyGetItem chunks i else none) =
        none) ∧
    (∀ i : Int, 0 ≤ i → i < (chunks.length : Int) →
      (if i < (chunks.length : Int) then pyGetItem chunks i else none) =
        chunks.get? i.toNat) ∧
    (∀ i : Int, -(chunks.length : Int) ≤ i → i < 0 →
      (if i < (chunks.length : Int) then pyGetItem chunks i else none) =
        chunks.get? (i + chunks.length).toNat) := by
  refine ⟨?_, ?_, ?_, ?_, ?_⟩
  · intro h
    unfold get_relevant_chunks
    rw [retrieveLoop_ok chunks indices h]
  · intro h
    unfold get_relevant_chunks
    rw [retrieveLoop_indexError chunks indices h]
  · intro i hi
    rw [if_neg (by omega)]
  · intro i h0 hlt
    rw [if_pos hlt]
    unfold pyGetItem
    rw [if_pos h0]
  · intro i hge hneg
    rw [if_pos (by omega)]
    unfold pyGetItem
    rw [if_neg (by omega), if_pos hge]

/-- C2 (witness): the amended theorem at `indices = [0, 5, -1]` over two
chunks — `0` resolves, `5` is skipped, `-1` resolves to the last chunk. -/
theorem get_relevant_chunks_bounds_behaviour_witness :
    get_relevant_chunks [0, 5, -1] ["a", "b"] = ["a", "b"] := by
  have h := (get_relevant_chunks_bounds_behaviour [0, 5, -1] ["a", "b"]).1
    (by decide)
  rw [h]
  rfl

/-! ## Claim C3 — the VectorIndex search contract

Modelled from the spec: the nearest-neighbour search itself lives in the
external faiss library (`IndexFlatL2`), whose source is not part of this
repository; only `build_faiss_index`/`get_relevant_chunks` call it.  The
§4.3 contract of the spec is therefore embedded directly. -/

/-- Modelled from the spec: squared Euclidean (L2) distance between a query
vector and a stored vector. -/
def sqDistL2 (q v : List ℚ) : ℚ :=
  (List.zipWith (fun a b => (a - b) * (a - b)) q v).sum

/-- Modelled from the spec: the result ordering of `search` — ascending
distance, ties broken by ascending stored index. -/
def searchRel (a b : ℕ × ℚ) : Prop :=
  a.2 < b.2 ∨ (a.2 = b.2 ∧ a.1 ≤ b.1)

instance : DecidableRel searchRel :=
  fun a b => by unfold searchRel; infer_instance

instance : IsTotal (ℕ × ℚ) searchRel := by
  constructor
  intro a b
  unfold searchRel
  rcases lt_trichotomy a.2 b.2 with h | h | h
  · exact Or.inl (Or.inl h)
  · rcases Nat.le_total a.1 b.1 with h1 | h1
    · exact Or.inl (Or.inr ⟨h, h1⟩)
    · exact Or.inr (Or.inr ⟨h.symm, h1⟩)
  · exact Or.inr (Or.inl h)

instance : IsTrans (ℕ × ℚ) searchRel := by
  constructor
  intro a b c hab hbc
  unfold searchRel at *
  rcases hab with h1 | h1 <;> rcases hbc with h2 | h2
  · exact Or.inl (h1.trans h2)
  · exact Or.inl (lt_of_lt_of_eq h1 h2.1)
  · exact Or.inl (lt_of_eq_of_lt h1.1 h2)
  · exact Or.inr ⟨h1.1.trans h2.1, h1.2.trans h2.2⟩

/-- Modelled from the spec: `VectorIndex.search(query_vector, k)` over the
vectors stored in build order — every stored vector is paired with its
stable index and L2 distance to the query, the pairs are sorted by
(distance, index), and the first `k` are returned. -/
def vectorIndexSearch (vectors : List (List ℚ)) (q : List ℚ) (k : ℕ) :
    List (ℕ × ℚ) :=
  (List.insertionSort searchRel
    (vectors.enum.map (fun p => (p.1, sqDistL2 q p.2)))).take k

/-- C3: `search` returns `min k n` entries; they are sorted by strictly
ascending (distance, index) — so by non-decreasing distance with ties in
ascending stored-index order; every returned index points at a stored
vector and carries its true L2 distance to the query; and whenever the
index holds at most `k` vectors the result is exactly all `n` entries (a
permutation of the full enumeration — no padding, no sentinel indices). -/
theorem vectorIndexSearch_contract (vectors : List (List ℚ)) (q : List ℚ)
    (k : ℕ) :
    (vectorIndexSearch vectors q k).length = min k vectors.length ∧
    List.Sorted searchRel (vectorIndexSearch vectors q k) ∧
    List.Pairwise (fun a b : ℕ × ℚ => a.2 < b.2 ∨ (a.2 = b.2 ∧ a.1 < b.1))
      (vectorIndexSearch vectors q k) ∧
    (∀ p ∈ vectorIndexSearch vectors q k,
      ∃ v, vectors[p.1]? = some v ∧ p.2 = sqDistL2 q v) ∧
    (∀ m : ℕ, List.Perm (vectorIndexSearch vectors q (vectors.length + m))
      (vectors.enum.map (fun p => (p.1, sqDistL2 q p.2)))) := by
  have hlen : (List.insertionSort searchRel
      (vectors.enum.map (fun p => (p.1, sqDistL2 q p.2)))).length =
        vectors.length := by
    simp [List.length_insertionSort]
  have hsorted := List.sorted_insertionSort searchRel
    (vectors.enum.map (fun p => (p.1, sqDistL2 q p.2)))
  have hperm := List.perm_insertionSort searchRel
    (vectors.enum.map (fun p => (p.1, sqDistL2 q p.2)))
  have hsub : List.Sublist (vectorIndexSearch vectors q k)
      (List.insertionSort searchRel
        (vectors.enum.map (fun p => (p.1, sqDistL2 q p.2)))) :=
    List.take_sublist _ _
  have hnodup_fst : ((List.insertionSort searchRel
      (vectors.enum.map (fun p => (p.1, sqDistL2 q p.2)))).map
        Prod.fst).Nodup := by
    have hp : List.Perm ((List.insertionSort searchRel
        (vectors.enum.map (fun p => (p.1, sqDistL2 q p.2)))).map Prod.fst)
          ((vectors.enum.map (fun p => (p.1, sqDistL2 q p.2))).map Prod.fst) :=
      hperm.map Prod.fst
    refine hp.nodup_iff.mpr ?_
    rw [List.map_map]
    have hcomp : (Prod.fst ∘ fun p : ℕ × List ℚ => (p.1, sqDistL2 q p.2)) =
        Prod.fst := by
      funext p
      rfl
    rw [hcomp, List.enum_map_fst]
    exact List.nodup_range _
  refine ⟨?_, ?_, ?_, ?_, ?_⟩
  · simp [vectorIndexSearch, List.length_take, hlen]
  · exact hsorted.sublist hsub
  · have hne : List.Pairwise (fun a b : ℕ × ℚ => a.1 ≠ b.1)
        (List.insertionSort searchRel
          (vectors.enum.map (fun p => (p.1, sqDistL2 q p.2)))) :=
      (List.pairwise_map).mp hnodup_fst
    have hstrict : List.Pairwise
        (fun a b : ℕ × ℚ => a.2 < b.2 ∨ (a.2 = b.2 ∧ a.1 < b.1))
        (List.insertionSort searchRel
          (vectors.enum.map (fun p => (p.1, sqDistL2 q p.2)))) := by
      refine (hsorted.and hne).imp ?_
      intro a b h
      obtain ⟨hs, hne1⟩ := h
      unfold searchRel at hs
      rcases hs with hr | ⟨he, hle⟩
      · exact Or.inl hr
      · exact Or.inr ⟨he, lt_of_le_of_ne hle hne1⟩
    exact hstrict.sublist hsub
  · intro p hp
    have hmem : p ∈ List.insertionSort searchRel
        (vectors.enum.map (fun q1 => (q1.1, sqDistL2 q q1.2))) :=
      hsub.subset hp
    rw [List.mem_insertionSort] at hmem
    obtain ⟨⟨i, v⟩, hiv, rfl⟩ := List.mem_map.mp hmem
    refine ⟨v, ?_, rfl⟩
    exact List.mem_enum_iff_getElem?.mp hiv
  · intro m
    have htake : vectorIndexSearch vectors q (vectors.length + m) =
        List.insertionSort searchRel
          (vectors.enum.map (fun p => (p.1, sqDistL2 q p.2))) := by
      unfold vectorIndexSearch
      exact List.take_of_length_le (by omega)
    rw [htake]
    exact hperm

/-- C3 (witness): the contract applied to a concrete three-vector index. -/
theorem vectorIndexSearch_contract_witness :
    (vectorIndexSearch [[0], [3], [1]] [0] 2).length = min 2 3 ∧
    List.Sorted searchRel (vectorIndexSearch [[0], [3], [1]] [0] 2) :=
  ⟨(vectorIndexSearch_contract [[0], [3], [1]] [0] 2).1,
   (vectorIndexSearch_contract [[0], [3], [1]] [0] 2).2.1⟩

/-! ## Claim C6 — sliding-window chunking

Supporting lemmas about the whitespace tokenizer and the space join. -/

/-- Unfolding equation of `tokAux` on the empty input. -/
theorem tokAux_nil (acc : List Char) :
    tokAux [] acc = if acc = [] then [] else [acc.reverse] := rfl

/-- Unfolding equation of `tokAux` on a cons. -/
theorem tokAux_cons (c : Char) (l acc : List Char) :
    tokAux (c :: l) acc =
      if c.isWhitespace = true then
        (if acc = [] then tokAux l [] else acc.reverse :: tokAux l [])
      else tokAux l (c :: acc) := rfl

/-- Every token of `tokAux` is non-empty and whitespace-free (given a
whitespace-free accumulator). -/
theorem tokAux_good :
    ∀ (l acc : List Char), (∀ c ∈ acc, c.isWhitespace = false) →
      ∀ w ∈ tokAux l acc, w ≠ [] ∧ ∀ c ∈ w, c.isWhitespace = false := by
  intro l
  induction l with
  | nil =>
    intro acc hacc w hw
    rw [tokAux_nil] at hw
    by_cases h : acc = []
    · simp [h] at hw
    · rw [if_neg h] at hw
      rcases List.mem_singleton.mp hw with rfl
      refine ⟨by simpa using h, ?_⟩
      intro c hc
      exact hacc c (List.mem_reverse.mp hc)
  | cons c rest ih =>
    intro acc hacc w hw
    rw [tokAux_cons] at hw
    by_cases hws : c.isWhitespace = true
    · rw [if_pos hws] at hw
      by_cases h : acc = []
      · rw [if_pos h] at hw
        exact ih [] (by simp) w hw
      · rw [if_neg h] at hw
        rcases List.mem_cons.mp hw with rfl | hw2
        · refine ⟨by simpa using h, ?_⟩
          intro c1 hc1
          exact hacc c1 (List.mem_reverse.mp hc1)
        · exact ih [] (by simp) w hw2
    · rw [if_neg hws] at hw
      refine ih (c :: acc) ?_ w hw
      intro c1 hc1
      rcases List.mem_cons.mp hc1 with rfl | hc2
      · simpa using hws
      · exact hacc c1 hc2

/-- Consuming a whitespace-free word moves it (reversed) into the
accumulator. -/
theorem tokAux_chain :
    ∀ (t l acc : List Char), (∀ c ∈ t, c.isWhitespace = false) →
      tokAux (t ++ l) acc = tokAux l (t.reverse ++ acc) := by
  intro t
  induction t with
  | nil => intro l acc _; simp
  | cons c t ih =>
    intro l acc h
    have hc : c.isWhitespace = false := h c (List.mem_cons_self c t)
    rw [List.cons_append, tokAux_cons, if_neg (by simp [hc]),
      ih l (c :: acc) (fun c1 hc1 => h c1 (List.mem_cons_of_mem c hc1)),
      List.reverse_cons, List.append_assoc]
    rfl

/-- Tokenizing after a whitespace character flushes the accumulator. -/
theorem tokAux_flush (c : Char) (hc : c.isWhitespace = true)
    (l acc : List Char) :
    tokAux (c :: l) acc =
      if acc = [] then tokAux l [] else acc.reverse :: tokAux l [] := by
  rw [tokAux_cons, if_pos hc]

/-- Tokenizing a space join of non-empty whitespace-free words recovers
exactly the words. -/
theorem tokAux_joinTok :
    ∀ W : List (List Char),
      (∀ w ∈ W, w ≠ [] ∧ ∀ c ∈ w, c.isWhitespace = false) →
      tokAux (joinTok W) [] = W := by
  intro W
  induction W with
  | nil => intro _; rfl
  | cons t rest ih =>
    intro h
    obtain ⟨ht_ne, ht_ws⟩ := h t (List.mem_cons_self t rest)
    have hrest := fun w hw => h w (List.mem_cons_of_mem t hw)
    cases rest with
    | nil =>
      show tokAux t [] = [t]
      have := tokAux_chain t [] [] ht_ws
      rw [List.append_nil] at this
      rw [this]
      unfold tokAux
      rw [if_neg (by simpa using ht_ne)]
      simp
    | cons u rest2 =>
      show tokAux (t ++ ' ' :: joinTok (u :: rest2)) [] = t :: u :: rest2
      rw [tokAux_chain t (' ' :: joinTok (u :: rest2)) [] ht_ws]
      rw [tokAux_flush ' ' (by decide) _ _]
      rw [if_neg (by simpa using ht_ne)]
      rw [List.append_nil, List.reverse_reverse]
      rw [ih hrest]

/-- Splitting a space join of non-empty whitespace-free words recovers the
words. -/
theorem pyWords_pyJoin (ws : List String)
    (h : ∀ w ∈ ws, w.data ≠ [] ∧ ∀ c ∈ w.data, c.isWhitespace = false) :
    pyWords (pyJoin ws) = ws := by
  unfold pyWords pyJoin
  have hgood : ∀ w ∈ ws.map String.data,
      w ≠ [] ∧ ∀ c ∈ w, c.isWhitespace = false := by
    intro w hw
    obtain ⟨s, hs, rfl⟩ := List.mem_map.mp hw
    exact h s hs
  rw [show (String.mk (joinTok (ws.map String.data))).data =
    joinTok (ws.map String.data) from rfl]
  rw [tokAux_joinTok (ws.map String.data) hgood, List.map_map]
  have hmk : ∀ s : String, (String.mk ∘ String.data) s = s := fun s => rfl
  exact List.map_congr_left (fun s _ => hmk s) |>.trans (List.map_id ws)

/-- Every word of `pyWords` is non-empty and whitespace-free. -/
theorem pyWords_good (s : String) :
    ∀ w ∈ pyWords s, w.data ≠ [] ∧ ∀ c ∈ w.data, c.isWhitespace = false := by
  intro w hw
  unfold pyWords at hw
  obtain ⟨cl, hcl, rfl⟩ := List.mem_map.mp hw
  exact tokAux_good s.data [] (by simp) cl hcl

/-- Strip-truthiness of a space join of non-empty whitespace-free words is
exactly non-emptiness of the word list. -/
theorem pyStripTruthy_pyJoin (ws : List String)
    (h : ∀ w ∈ ws, w.data ≠ [] ∧ ∀ c ∈ w.data, c.isWhitespace = false) :
    pyStripTruthy (pyJoin ws) = decide (ws ≠ []) := by
  cases ws with
  | nil => rfl
  | cons x rest =>
    obtain ⟨hx_ne, hx_ws⟩ := h x (List.mem_cons_self x rest)
    rw [show decide ((x :: rest) ≠ []) = true by simp]
    unfold pyStripTruthy pyJoin
    rcases List.exists_mem_of_ne_nil x.data hx_ne with ⟨c, hc⟩
    have hcx : c.isWhitespace = false := hx_ws c hc
    have hmem : c ∈ joinTok ((x :: rest).map String.data) := by
      cases rest with
      | nil => simpa using hc
      | cons u rest2 =>
        show c ∈ x.data ++ ' ' :: joinTok _
        exact List.mem_append_left _ hc
    refine List.any_eq_true.mpr ⟨c, hmem, ?_⟩
    simp [hcx]

/-- The window start offsets of the spec: `0, stride, 2·stride, …`,
continuing while the offset is strictly below the token count `n`. -/
def offsetsUpTo (n stride : Nat) : List Nat :=
  (List.range ((n + stride - 1) / stride)).map (fun j => stride * j)

/-- The sliding-window chunker as worded by the spec: at each offset take the next
`cs` tokens, drop empty windows, and rejoin each window with single
spaces. -/
def slidingChunks (words : List String) (cs stride : Nat) : List String :=
  (((offsetsUpTo words.length stride).map
    (fun i => (words.drop i).take cs)).filter (fun w => w ≠ [])).map pyJoin

/-- A Python slice `l[i : i + cs]` with non-negative start and width is a
drop-then-take. -/
theorem pySlice_drop_take {α : Type} (l : List α) (i cs : Int)
    (hi : 0 ≤ i) (hcs : 0 ≤ cs) :
    pySlice l i (i + cs) = (l.drop i.toNat).take cs.toNat := by
  unfold pySlice pySliceIdx
  rw [if_neg (show ¬ i < 0 by omega), if_neg (show ¬ i + cs < 0 by omega)]
  have ha : (min i (l.length : Int)).toNat = min i.toNat l.length := by omega
  have hb : (min (i + cs) (l.length : Int)).toNat =
      min (i.toNat + cs.toNat) l.length := by omega
  rw [ha, hb, List.drop_take]
  by_cases hle : i.toNat ≤ l.length
  · rw [Nat.min_eq_left hle]
    refine List.take_eq_take.mpr ?_
    simp only [List.length_drop]
    omega
  · have h1 : min i.toNat l.length = l.length := by omega
    have h2 : min (i.toNat + cs.toNat) l.length = l.length := by omega
    rw [h1, h2, Nat.sub_self, List.take_zero,
      List.drop_eq_nil_of_le (by omega), List.take_nil]

/-- `range(0, n, step)` for a positive step is the list of multiples of the
step below `n`. -/
theorem pyRange_pos_eq (n : Nat) (step : Int) (h : 0 < step) :
    pyRange 0 (n : Int) step =
      .ok ((List.range ((n + step.toNat - 1) / step.toNat)).map
        (fun j => ((step.toNat * j : Nat) : Int))) := by
  obtain ⟨sN, rfl⟩ : ∃ sN : Nat, step = (sN : Int) := ⟨step.toNat, by omega⟩
  unfold pyRange pyRangeCount
  rw [if_neg (by omega), if_pos h]
  have hcount : (((n : Int) - 0 + sN - 1) / sN).toNat = (n + sN - 1) / sN := by
    have h1 : (n : Int) - 0 + sN - 1 = ((n + sN - 1 : Nat) : Int) := by omega
    rw [h1, ← Int.ofNat_ediv]
    exact Int.toNat_ofNat _
  rw [hcount, Int.toNat_ofNat]
  refine congrArg _ (List.map_congr_left ?_)
  intro j _
  push_cast
  ring

/-- The chunk-collecting fold of `split_text_into_chunks` is a
map-then-filter. -/
theorem chunk_foldl_eq (words : List String) (cs : Int) (idxs : List Int) :
    idxs.foldl (fun acc i =>
      let chunk := pyJoin (pySlice words i (i + cs))
      if pyStripTruthy chunk then acc ++ [chunk] else acc) [] =
    (idxs.map (fun i => pyJoin (pySlice words i (i + cs)))).filter
      pyStripTruthy := by
  suffices h : ∀ (idxs2 : List Int) (acc : List String),
      idxs2.foldl (fun acc i =>
        let chunk := pyJoin (pySlice words i (i + cs))
        if pyStripTruthy chunk then acc ++ [chunk] else acc) acc =
      acc ++ (idxs2.map (fun i => pyJoin (pySlice words i (i + cs)))).filter
        pyStripTruthy by
    simpa using h idxs []
  intro idxs2
  induction idxs2 with
  | nil => intro acc; simp
  | cons i rest ih =>
    intro acc
    simp only [List.foldl_cons, List.map_cons, List.filter_cons]
    by_cases hp : pyStripTruthy (pyJoin (pySlice words i (i + cs))) = true
    · simp [hp, ih, List.append_assoc]
    · simp [hp, ih]

/-- Every element of a window over `pyWords` is a good token. -/
theorem window_good (text : String) (csN iN : Nat) :
    ∀ x ∈ ((pyWords text).drop iN).take csN,
      x.data ≠ [] ∧ ∀ c ∈ x.data, c.isWhitespace = false :=
  fun x hx =>
    pyWords_good text x (List.mem_of_mem_drop (List.mem_of_mem_take hx))

/-- `Except.map` on a success. -/
theorem except_map_ok {ε α β : Type} (f : α → β) (x : α) :
    Except.map f (Except.ok (ε := ε) x) = .ok (f x) := rfl

/-- For a positive stride, the source chunker produces exactly the sliding
windows worded by the spec. -/
theorem split_text_into_chunks_pos (text : String) (cs ov : Int)
    (hov : 0 ≤ ov) (hlt : ov < cs) :
    split_text_into_chunks text cs ov =
      .ok (slidingChunks (pyWords text) cs.toNat (cs - ov).toNat) := by
  have hstep : 0 < cs - ov := by omega
  unfold split_text_into_chunks
  dsimp only
  rw [pyRange_pos_eq (pyWords text).length (cs - ov) hstep, except_map_ok]
  congr 1
  rw [chunk_foldl_eq, List.map_map]
  unfold slidingChunks offsetsUpTo
  rw [List.map_map]
  have hwin : ∀ j ∈ List.range (((pyWords text).length + (cs - ov).toNat - 1) /
      (cs - ov).toNat),
      ((fun i => pyJoin (pySlice (pyWords text) i (i + cs))) ∘
        (fun j : ℕ => (((cs - ov).toNat * j : Nat) : Int))) j =
      (pyJoin ∘ ((fun i => ((pyWords text).drop i).take cs.toNat) ∘
        (fun j : ℕ => (cs - ov).toNat * j))) j := by
    intro j _
    show pyJoin (pySlice (pyWords text) (((cs - ov).toNat * j : Nat) : Int)
      ((((cs - ov).toNat * j : Nat) : Int) + cs)) = _
    rw [pySlice_drop_take (pyWords text) _ cs (by omega) (by omega),
      Int.toNat_ofNat]
    rfl
  rw [List.map_congr_left hwin]
  rw [show (pyJoin ∘ ((fun i => ((pyWords text).drop i).take cs.toNat) ∘
      (fun j : ℕ => (cs - ov).toNat * j))) =
    (fun j : ℕ => pyJoin (((pyWords text).drop ((cs - ov).toNat * j)).take
      cs.toNat)) from rfl]
  rw [show (fun j : ℕ => pyJoin (((pyWords text).drop
      ((cs - ov).toNat * j)).take cs.toNat)) =
    (pyJoin ∘ fun j : ℕ => ((pyWords text).drop
      ((cs - ov).toNat * j)).take cs.toNat) from rfl]
  rw [← List.map_map, List.filter_map]
  refine congrArg _ (List.filter_congr ?_)
  intro w hw
  obtain ⟨j, _, rfl⟩ := List.mem_map.mp hw
  exact pyStripTruthy_pyJoin _ (window_good text cs.toNat _)

/-- C6 (counterexample): the 4-word text `"a b c d"` has fewer than
`chunk_size = 5` words, yet with `overlap = 2` (stride 3 < 4 words) the
chunker returns two chunks, not exactly one chunk equal to the whole
text. -/
theorem chunker_short_text_not_single_chunk :
    split_text_into_chunks "a b c d" 5 2 = .ok ["a b c d", "d"] ∧
    (pyWords "a b c d").length < 5 ∧
    (["a b c d", "d"] : List String).length ≠ 1 :=
  ⟨rfl, by decide, by decide⟩

/-- C6 (amended): for `0 ≤ overlap < chunk_size` the chunker tokenizes by
whitespace and returns exactly the sliding windows of `chunk_size` tokens at
token offsets `0, stride, 2·stride, …` (stride `chunk_size - overlap`)
while the offset is below the token count, each window rejoined with single
spaces and empty windows dropped; every returned chunk has at most
`chunk_size` words; and a text whose word count is at least 1 and at most
`chunk_size - overlap` (the stride — not merely below `chunk_size`) yields
exactly one chunk, the whole whitespace-rejoined text. -/
theorem split_text_into_chunks_sliding_windows (text : String) (cs ov : Int)
    (hov : 0 ≤ ov) (hlt : ov < cs) :
    split_text_into_chunks text cs ov =
      .ok (slidingChunks (pyWords text) cs.toNat (cs - ov).toNat) ∧
    (∀ chunk ∈ slidingChunks (pyWords text) cs.toNat (cs - ov).toNat,
      (pyWords chunk).length ≤ cs.toNat) ∧
    (1 ≤ (pyWords text).length → ((pyWords text).length : Int) ≤ cs - ov →
      slidingChunks (pyWords text) cs.toNat (cs - ov).toNat =
        [pyJoin (pyWords text)]) := by
  refine ⟨split_text_into_chunks_pos text cs ov hov hlt, ?_, ?_⟩
  · intro chunk hmem
    unfold slidingChunks at hmem
    obtain ⟨w, hw_f, rfl⟩ := List.mem_map.mp hmem
    have hw_m := List.mem_of_mem_filter hw_f
    obtain ⟨off, _, rfl⟩ := List.mem_map.mp hw_m
    rw [pyWords_pyJoin _ (window_good text cs.toNat off)]
    exact List.length_take_le _ _
  · intro h1 h2
    have hsN1 : 1 ≤ (cs - ov).toNat := by omega
    have hn_le : (pyWords text).length ≤ (cs - ov).toNat := by omega
    have hsN_le : (cs - ov).toNat ≤ cs.toNat := by omega
    unfold slidingChunks offsetsUpTo
    have hcnt : ((pyWords text).length + (cs - ov).toNat - 1) /
        (cs - ov).toNat = 1 :=
      Nat.div_eq_of_lt_le (by omega) (by omega)
    rw [hcnt, show List.range 1 = [0] from rfl]
    simp only [List.map_cons, List.map_nil, Nat.mul_zero, List.drop_zero]
    rw [List.take_of_length_le (le_trans hn_le hsN_le)]
    have hne : pyWords text ≠ [] := List.ne_nil_of_length_pos (by omega)
    simp [hne]

/-- C6 (witness): the amended theorem at the scenario of the spec — a ten-word
text chunked at the defaults yields exactly one chunk equal to the whole
text. -/
theorem split_text_into_chunks_sliding_windows_witness :
    split_text_into_chunks
      "Player John scored 50 runs. Player Mary scored 60 runs." 500 50 =
      .ok ["Player John scored 50 runs. Player Mary scored 60 runs."] := by
  have h := split_text_into_chunks_sliding_windows
    "Player John scored 50 runs. Player Mary scored 60 runs." 500 50
    (by decide) (by decide)
  rw [h.1, h.2.2 (by decide) (by decide)]
  rfl

end SportsNews
